import Mathlib

/-!
Verification of the network-configuration renderer (`scripts/render_config.py`)
and the change-management integration (`scripts/servicenow_integration.py`).

The Python code is shallowly embedded: file-system state is an explicit
association list from paths (component lists) to contents, Jinja2 template
resolution is an explicit environment mapping a template file name to either
"not found" or a rendering function that may fail, and every Python function
touched by the specification is translated into an executable Lean definition.
-/

set_option autoImplicit false

/-- A filesystem path, as its list of components (`Path("a/b")` is `["a", "b"]`).
The parent of a path is `List.dropLast`. -/
abbrev FPath := List String

/-- A YAML-like value: scalar, sequence, or nested mapping
(the hierarchical input document of `yaml.safe_load`). -/
inductive YValue where
  | str (v : String)
  | int (v : Int)
  | seq (xs : List YValue)
  | map (kvs : List (String × YValue))

/-- The in-memory input document: a mapping from string keys to values
(the dict produced by `load_yaml_input` and splatted into `template.render(**data)`). -/
abbrev Document := List (String × YValue)

/-- First-match association-list lookup (Python dict lookup `d[k]` / `d.get(k)`). -/
def lookupA {α β : Type} [DecidableEq α] : List (α × β) → α → Option β
  | [], _ => none
  | (k, v) :: rest, key => if k = key then some v else lookupA rest key

/-- Association-list overwrite (Python dict assignment / overwriting a file). -/
def setA {α β : Type} [DecidableEq α] : List (α × β) → α → β → List (α × β)
  | [], k, v => [(k, v)]
  | (k', v') :: rest, k, v =>
    if k' = k then (k, v) :: rest else (k', v') :: setA rest k v

/-- Errors raised by the modelled filesystem operations. -/
inductive IOErr where
  | notFound
deriving DecidableEq

/-- Filesystem state: regular files (path to contents) and the set of
existing directories. -/
structure FS where
  files : List (FPath × String)
  dirs : List FPath
deriving DecidableEq

/-- Whether a directory exists; the root (empty path, the working directory)
always exists. -/
def FS.hasDir (fs : FS) (d : FPath) : Bool :=
  d.isEmpty || fs.dirs.contains d

/-- Model of `Path(d).mkdir(exist_ok=True)`: succeeds if `d` already exists; otherwise
creates it when its parent exists, and raises `FileNotFoundError` when the
parent is also missing (no `parents=True` in the source). -/
def FS.mkdirExistOk (fs : FS) (d : FPath) : Except IOErr FS :=
  if fs.hasDir d then Except.ok fs
  else if fs.hasDir d.dropLast then Except.ok { fs with dirs := d :: fs.dirs }
  else Except.error IOErr.notFound

/-- Model of `open(p, 'w')` followed by `f.write(content)`: overwrites unconditionally,
raising `FileNotFoundError` when the parent directory does not exist. -/
def FS.write (fs : FS) (p : FPath) (content : String) : Except IOErr FS :=
  if fs.hasDir p.dropLast then
    Except.ok { fs with files := setA fs.files p content }
  else Except.error IOErr.notFound

/-- Outcome of resolving a template file name in the Jinja2 environment
(`self.env.get_template(template_file)`): either the `TemplateNotFound`
signal, or a rendering function that may itself raise (modelled as `Except`). -/
inductive TemplateResult where
  | notFound
  | found (render : Document → Except String String)

/-- The Jinja2 environment over the templates directory: what each template
file name resolves to. -/
abbrev TemplateEnv := String → TemplateResult

/-- Diagnostics printed by `render_template`. -/
inductive Diag where
  | warnTemplateNotFound (template_file : String)
  | errorRendering (template_name : String) (msg : String)
deriving DecidableEq

/-- The fixed template mapping built in `ConfigRenderer.__init__`
(`self.template_files`); Python dicts iterate in insertion order, so the
list order is the iteration order of `render_all_templates`. -/
def template_files : List (String × String) :=
  [("bgp", "bgp.j2"),
   ("routing_filters", "routing_filters.j2"),
   ("interfaces", "interfaces.j2"),
   ("vlans", "vlans.j2"),
   ("system", "system.j2")]

/-- Embedding of `ConfigRenderer.render_template`: looks up `template_files[template_name]`
(a miss raises `KeyError`, caught by the broad `except Exception` branch),
resolves the template, renders it, and converts `TemplateNotFound` to an empty
string plus a warning and any other error to an empty string plus an error
diagnostic. Returns the rendered text together with the diagnostics printed. -/
def render_template (tf : List (String × String)) (env : TemplateEnv)
    (template_name : String) (data : Document) : String × List Diag :=
  match lookupA tf template_name with
  | none => ("", [Diag.errorRendering template_name ("KeyError: " ++ template_name)])
  | some template_file =>
    match env template_file with
    | TemplateResult.notFound => ("", [Diag.warnTemplateNotFound template_file])
    | TemplateResult.found render =>
      match render data with
      | Except.ok rendered => (rendered, [])
      | Except.error e => ("", [Diag.errorRendering template_name e])

/-- Python's `str.strip()` whitespace test (space, tab, newline, carriage
return, vertical tab, form feed). -/
def pyIsSpace (c : Char) : Bool :=
  c = ' ' || c = '\t' || c = '\n' || c = '\r' || c = '\x0b' || c = '\x0c'

/-- Python's `str.strip()` on a character list: drop whitespace from both ends. -/
def pyStripList (cs : List Char) : List Char :=
  ((cs.dropWhile pyIsSpace).reverse.dropWhile pyIsSpace).reverse

/-- Python's `s.strip()`. -/
def pyStrip (s : String) : String :=
  String.mk (pyStripList s.data)

/-- Python's `s.endswith(' ')`: the last character is a space
(`False` on the empty string). -/
def pyEndsWithSpace (s : String) : Bool :=
  match s.data.getLast? with
  | some c => c == ' '
  | none => false

/-- Python's `s.startswith('!')`: the first character is `'!'`
(`False` on the empty string). -/
def pyStartsWithBang (s : String) : Bool :=
  match s.data with
  | c :: _ => c == '!'
  | [] => false

/-- The accumulator loop of `render_all_templates`: iterate
`self.template_files.keys()` in order, render each section, and append the
original (untrimmed) rendered text whenever `rendered.strip()` is truthy. -/
def composeSections (tf : List (String × String)) (env : TemplateEnv)
    (data : Document) : List String :=
  (tf.map Prod.fst).foldl
    (fun config_sections template_name =>
      let rendered := (render_template tf env template_name data).1
      if !(pyStrip rendered == "") then config_sections ++ [rendered]
      else config_sections)
    []

/-- Embedding of `complete_config = "\n".join(config_sections)` in `render_all_templates`. -/
def renderComposedText (tf : List (String × String)) (env : TemplateEnv)
    (data : Document) : String :=
  String.intercalate "\n" (composeSections tf env data)

/-- The destination used by `render_all_templates`: the explicit `output_file`
argument when given, else `self.output_dir / f"{device_name}_config.txt"`. -/
def outPath (output_dir : FPath) (device_name : String) : Option FPath → FPath
  | some p => p
  | none => output_dir ++ [device_name ++ "_config.txt"]

/-- Embedding of `ConfigRenderer.render_all_templates`: compose the sections, then write
the complete configuration to the output file (an I/O failure of the write
propagates). Returns the new filesystem and the composed text. -/
def render_all_templates (tf : List (String × String)) (env : TemplateEnv)
    (output_dir : FPath) (data : Document) (device_name : String)
    (output_file : Option FPath) (fs : FS) : Except IOErr (FS × String) :=
  match FS.write fs (outPath output_dir device_name output_file)
      (renderComposedText tf env data) with
  | Except.ok fs2 => Except.ok (fs2, renderComposedText tf env data)
  | Except.error e => Except.error e

/-- Helper for `pySplitNl`: split a character list at newline characters,
carrying the reversed current piece. -/
def splitNlAux : List Char → List Char → List String
  | [], acc => [String.mk acc.reverse]
  | c :: cs, acc =>
    if c = '\n' then String.mk acc.reverse :: splitNlAux cs []
    else splitNlAux cs (c :: acc)

/-- Python's `s.split('\n')`: one piece per newline-separated segment,
including empty leading, trailing, and interior pieces
(`"a\n".split('\n') == ["a", ""]`, `"".split('\n') == [""]`). -/
def pySplitNl (s : String) : List String :=
  splitNlAux s.data []

/-- The loop body of `validate_config` over the already-split lines, carrying
the 1-based line counter of `enumerate(lines, 1)`. Each line is re-bound to
`line.strip()` before the blank/comment skip test and before the
trailing-whitespace check (exactly as in the source). Findings are
(line number, issue) pairs; the source formats them as
`f"Line {i}: Trailing whitespace"` when printing. -/
def validateLines : List String → Nat → List (Nat × String)
  | [], _ => []
  | l :: ls, i =>
    if pyStrip l == "" || pyStartsWithBang (pyStrip l) then validateLines ls (i + 1)
    else if pyEndsWithSpace (pyStrip l) then
      (i, "Trailing whitespace") :: validateLines ls (i + 1)
    else validateLines ls (i + 1)

/-- Embedding of `ConfigRenderer.validate_config`: split on newline, sweep every line,
return `True` exactly when the collected `validation_errors` list is empty,
together with that findings list. -/
def validate_config (config_text : String) : Bool × List (Nat × String) :=
  let validation_errors := validateLines (pySplitNl config_text) 1
  (validation_errors.isEmpty, validation_errors)

/-- Command-line arguments of `render_config.py` after `argparse`
(the templates directory is folded into the `TemplateEnv` parameter). -/
structure Args where
  input_file : FPath
  device_name : String
  output_dir : Option FPath
  validate : Bool

/-- The remainder of `render_config.main` after renderer construction:
load the YAML input (`sys.exit(1)` on a missing file or a parse error),
compute the output path (the given output directory, else the input file's
parent), render and write all templates (an uncaught I/O error exits with
status 1), then optionally validate, exiting 1 on a failing validation.
Returns the final filesystem and the process exit status. -/
def mainAfterInit (yamlLoad : String → Except String Document) (env : TemplateEnv)
    (a : Args) (fs1 : FS) : FS × Nat :=
  match lookupA fs1.files a.input_file with
  | none => (fs1, 1)
  | some raw =>
    match yamlLoad raw with
    | Except.error _ => (fs1, 1)
    | Except.ok data =>
      let out := match a.output_dir with
        | some d => d ++ [a.device_name ++ "_config.txt"]
        | none => a.input_file.dropLast ++ [a.device_name ++ "_config.txt"]
      match render_all_templates template_files env (a.output_dir.getD ["output"])
          data a.device_name (some out) fs1 with
      | Except.error _ => (fs1, 1)
      | Except.ok (fs2, config) =>
        if a.validate && !(validate_config config).1 then (fs2, 1) else (fs2, 0)

/-- One full run of `render_config.main`, part one: constructing
`ConfigRenderer` runs `self.output_dir.mkdir(exist_ok=True)`; an uncaught
`FileNotFoundError` there aborts the process with status 1, otherwise the
run continues with `mainAfterInit`. -/
def mainRun (yamlLoad : String → Except String Document) (env : TemplateEnv)
    (a : Args) (fs : FS) : FS × Nat :=
  match FS.mkdirExistOk fs (a.output_dir.getD ["output"]) with
  | Except.error _ => (fs, 1)
  | Except.ok fs1 => mainAfterInit yamlLoad env a fs1

/-- Modelled from the spec (refinement comparison only): the Section Renderer
contract `render(templateId, document) -> text` of the specification, which
resolves the template identifier directly and absorbs both failure modes
into empty text. Compared against `render_template` (the source function,
which looks identifiers up by section name). -/
def renderEntry (env : TemplateEnv) (template_id : String) (doc : Document) : String :=
  match env template_id with
  | TemplateResult.notFound => ""
  | TemplateResult.found render =>
    match render doc with
    | Except.ok s => s
    | Except.error _ => ""

/-- Modelled from the spec (refinement comparison only): the Composer
algorithm as the specification words it — iterate registry entries in order,
render each, keep the original text of exactly those whose trimmed text is
non-empty, and join with a single newline. -/
def specComposedText (tf : List (String × String)) (env : TemplateEnv)
    (doc : Document) : String :=
  String.intercalate "\n"
    ((tf.map (fun e => renderEntry env e.2 doc)).filter (fun s => !(pyStrip s == "")))

/-- The `status_mapping` dict of `servicenow_integration.main`. -/
def status_mapping : List (String × String) :=
  [("success", "Review"), ("failure", "Authorize"), ("cancelled", "Cancelled")]

/-- Embedding of `snow_status = status_mapping.get(workflow_status, 'Authorize')`. -/
def snowStatusFor (workflow_status : String) : String :=
  (lookupA status_mapping workflow_status).getD "Authorize"

/-- The body of the PUT request built by
`ServiceNowIntegration.update_change_request` (the source's f-string uses an
escaped backslash, so `\\n\\n` is two literal backslash-n sequences). -/
structure UpdateData where
  state : String
  work_notes : String
deriving DecidableEq

/-- The `update_data` dict built in `update_change_request`. -/
def mkUpdateData (status comments timestamp : String) : UpdateData :=
  { state := status,
    work_notes := "GitHub Actions Update: " ++ comments ++
      "\\n\\nTimestamp: " ++ timestamp }

/-- The change-record update issued by `servicenow_integration.main` for a
final workflow outcome: the change number together with the update body whose
`state` field is the mapped status label. -/
def mainUpdateFor (workflow_status change_number timestamp : String) :
    String × UpdateData :=
  let snow_status := snowStatusFor workflow_status
  let comments := "GitHub Actions workflow completed with status: " ++ workflow_status
  (change_number, mkUpdateData snow_status comments timestamp)

/-- A template environment in which no template file resolves
(every lookup raises `TemplateNotFound`). -/
def envNone : TemplateEnv := fun _ => TemplateResult.notFound

/-- A concrete filesystem with no files and an existing `output` directory. -/
def fs0Cex : FS := { files := [], dirs := [["output"]] }

/-- The hypothetical registry of the isolation scenario:
an `interfaces` section with a resolvable template and a `vlans` section
whose template is unresolvable. -/
def registryC4 : List (String × String) :=
  [("interfaces", "ok.tmpl"), ("vlans", "missing.tmpl")]

/-- The template environment of the isolation scenario: `ok.tmpl` renders
`"interface Eth1"` for any input, every other identifier is unresolvable. -/
def envC4 : TemplateEnv := fun template_id =>
  if template_id = "ok.tmpl" then
    TemplateResult.found (fun _ => Except.ok "interface Eth1")
  else TemplateResult.notFound

/-- A trivial YAML loader for concrete runs: every file parses to the empty
document. -/
def yamlLoadEmpty : String → Except String Document := fun _ => Except.ok []

/-! Helper lemmas about the embedded operations. -/

theorem lookupA_setA_self {α β : Type} [DecidableEq α] (l : List (α × β)) (k : α) (v : β) :
    lookupA (setA l k v) k = some v := by
  induction l with
  | nil => simp [setA, lookupA]
  | cons hd t ih =>
    obtain ⟨k', v'⟩ := hd
    by_cases hk : k' = k
    · simp [setA, hk, lookupA]
    · simp [setA, hk, lookupA, ih]

theorem lookupA_setA_ne {α β : Type} [DecidableEq α] (l : List (α × β)) (k q : α) (v : β)
    (h : q ≠ k) : lookupA (setA l k v) q = lookupA l q := by
  induction l with
  | nil => simp [setA, lookupA, Ne.symm h]
  | cons hd t ih =>
    obtain ⟨k', v'⟩ := hd
    by_cases hk : k' = k
    · subst hk
      simp [setA, lookupA, Ne.symm h]
    · simp [setA, hk, lookupA, ih]

theorem mkdirExistOk_files (fs : FS) (d : FPath) (fs1 : FS)
    (h : FS.mkdirExistOk fs d = Except.ok fs1) : fs1.files = fs.files := by
  unfold FS.mkdirExistOk at h
  split at h
  · cases h
    rfl
  · split at h
    · cases h
      rfl
    · cases h

theorem mkdirExistOk_hasDir (fs : FS) (d : FPath) (fs1 : FS)
    (h : FS.mkdirExistOk fs d = Except.ok fs1) : fs1.hasDir d = true := by
  unfold FS.mkdirExistOk at h
  split at h
  next hd =>
    cases h
    exact hd
  next =>
    split at h
    · cases h
      simp [FS.hasDir]
    · cases h

theorem mkdirExistOk_idem (fs : FS) (d : FPath) (fs1 : FS)
    (h : FS.mkdirExistOk fs d = Except.ok fs1) (hd : fs.hasDir d = true) : fs1 = fs := by
  unfold FS.mkdirExistOk at h
  rw [if_pos hd] at h
  cases h
  rfl

theorem head?_dropWhile_not {p : Char → Bool} :
    ∀ (l : List Char) (c : Char), (l.dropWhile p).head? = some c → p c = false := by
  intro l
  induction l with
  | nil =>
    intro c h
    simp [List.dropWhile] at h
  | cons x xs ih =>
    intro c h
    rw [List.dropWhile_cons] at h
    by_cases hp : p x
    · rw [if_pos hp] at h
      exact ih c h
    · rw [if_neg hp] at h
      simp only [List.head?_cons, Option.some.injEq] at h
      rw [← h]
      exact Bool.not_eq_true _ ▸ hp

theorem pyStrip_getLast?_not_space (s : String) (c : Char)
    (h : (pyStrip s).data.getLast? = some c) : pyIsSpace c = false := by
  replace h : (pyStripList s.data).getLast? = some c := h
  unfold pyStripList at h
  rw [List.getLast?_reverse] at h
  exact head?_dropWhile_not _ c h

theorem pyEndsWithSpace_pyStrip (s : String) : pyEndsWithSpace (pyStrip s) = false := by
  unfold pyEndsWithSpace
  cases hl : (pyStrip s).data.getLast? with
  | none => rfl
  | some c =>
    have hc := pyStrip_getLast?_not_space s c hl
    simp only [pyIsSpace, Bool.or_eq_false_iff, decide_eq_false_iff_not] at hc
    simp [hc.1]

theorem validateLines_eq_nil : ∀ (ls : List String) (i : Nat), validateLines ls i = [] := by
  intro ls
  induction ls with
  | nil => intro i; rfl
  | cons l t ih =>
    intro i
    simp [validateLines, pyEndsWithSpace_pyStrip, ih]

theorem validate_config_eq (t : String) : validate_config t = (true, []) := by
  unfold validate_config
  rw [validateLines_eq_nil]
  rfl

theorem foldl_filter_append {α β : Type} (f : α → β) (p : β → Bool) :
    ∀ (l : List α) (acc : List β),
      l.foldl (fun a x => if p (f x) then a ++ [f x] else a) acc =
        acc ++ (l.map f).filter p := by
  intro l
  induction l with
  | nil => intro acc; simp
  | cons x xs ih =>
    intro acc
    rw [List.foldl_cons, ih]
    by_cases hp : p (f x)
    · simp [hp, List.filter_cons]
    · simp [hp, List.filter_cons]

theorem composeSections_eq (tf : List (String × String)) (env : TemplateEnv)
    (data : Document) :
    composeSections tf env data =
      ((tf.map Prod.fst).map (fun n => (render_template tf env n data).1)).filter
        (fun s => !(pyStrip s == "")) := by
  have h := foldl_filter_append (fun n => (render_template tf env n data).1)
      (fun s => !(pyStrip s == "")) (tf.map Prod.fst) []
  exact h.trans (List.nil_append _)

theorem lookupA_eq_of_mem {β : Type} :
    ∀ (tf : List (String × β)) (e : String × β),
      (tf.map Prod.fst).Nodup → e ∈ tf → lookupA tf e.1 = some e.2 := by
  intro tf
  induction tf with
  | nil =>
    intro e _ he
    cases he
  | cons kv t ih =>
    intro e hnd he
    obtain ⟨k, v⟩ := kv
    rw [List.map_cons, List.nodup_cons] at hnd
    cases he with
    | head => simp [lookupA]
    | tail _ ht =>
      have hk : k ≠ e.1 := by
        intro hkk
        have hmem := List.mem_map_of_mem Prod.fst ht
        rw [← hkk] at hmem
        exact hnd.1 hmem
      simp [lookupA, hk, ih e hnd.2 ht]

theorem render_template_fst_eq (tf : List (String × String)) (env : TemplateEnv)
    (doc : Document) (e : String × String) (h : lookupA tf e.1 = some e.2) :
    (render_template tf env e.1 doc).1 = renderEntry env e.2 doc := by
  cases henv : env e.2 with
  | notFound => simp [render_template, renderEntry, h, henv]
  | found g =>
    cases hg : g doc <;> simp [render_template, renderEntry, h, henv, hg]

theorem write_ok_of_hasDir (fs : FS) (p : FPath) (content : String)
    (hd : fs.hasDir p.dropLast = true) :
    FS.write fs p content = Except.ok { fs with files := setA fs.files p content } := by
  unfold FS.write
  rw [if_pos hd]

theorem write_ok_shape (fs : FS) (p : FPath) (content : String) (fs2 : FS)
    (h : FS.write fs p content = Except.ok fs2) :
    fs2 = { fs with files := setA fs.files p content } := by
  unfold FS.write at h
  split at h
  · cases h
    rfl
  · cases h

/-! Theorems settling the claims. -/

/-- Claim C1 (code behavior at the failing input): on the composed text
`"no issues here\nbad line \nclean\n"` the source's `validate_config` returns
`pass = true` with an empty findings list, not `pass = false` with one
finding — each line is re-bound to its stripped form before the
`endswith(' ')` check, so the trailing-whitespace rule can never fire. -/
theorem validate_scenario_trailing_ws_not_flagged :
    validate_config "no issues here\nbad line \nclean\n" = (true, []) := rfl

/-- Claim C10: for every input text, a line that strips to the empty string
or whose stripped form begins with the comment marker `'!'` contributes no
finding of `validate_config` at its 1-based line number. -/
theorem blank_or_comment_line_never_flagged (t : String) (i : Nat) (line : String)
    (h1 : (pySplitNl t).get? i = some line)
    (h2 : (pyStrip line == "" || pyStartsWithBang (pyStrip line)) = true) :
    List.filter (fun f => f.1 == i + 1) (validate_config t).2 = [] := by
  rw [validate_config_eq t]
  rfl

theorem blank_or_comment_line_never_flagged_w :
    List.filter (fun f => f.1 == 0 + 1) (validate_config "!note\nok line").2 = [] :=
  blank_or_comment_line_never_flagged "!note\nok line" 0 "!note" rfl rfl

/-- Claim C2: for every input document and every registry with unique section
names, the composed configuration produced by the source's accumulator loop
equals the specification's description — the newline-join, in registry order,
of the original (untrimmed) rendered texts of exactly those sections whose
rendered text is non-empty after trimming. -/
theorem compose_matches_spec_filter_join (tf : List (String × String))
    (env : TemplateEnv) (doc : Document) (hnd : (tf.map Prod.fst).Nodup) :
    renderComposedText tf env doc = specComposedText tf env doc := by
  unfold renderComposedText specComposedText
  rw [composeSections_eq]
  have hmap : (tf.map Prod.fst).map (fun n => (render_template tf env n doc).1) =
      tf.map (fun e => renderEntry env e.2 doc) := by
    rw [List.map_map]
    exact List.map_congr_left (fun e he =>
      render_template_fst_eq tf env doc e (lookupA_eq_of_mem tf e hnd he))
  rw [hmap]

theorem compose_matches_spec_filter_join_w :
    renderComposedText template_files envNone [] =
      specComposedText template_files envNone [] :=
  compose_matches_spec_filter_join template_files envNone [] (by decide)

/-- Claim C9: the section registry is exactly the five entries
bgp, routing_filters, interfaces, vlans, system (with their `.j2` template
identifiers) in this order, the logical names are unique, and the compose
loop iterates exactly these names in exactly this order for every
environment and input document. -/
theorem registry_fixed_order_and_iteration :
    template_files.map Prod.fst =
        ["bgp", "routing_filters", "interfaces", "vlans", "system"] ∧
      template_files.map Prod.snd =
        ["bgp.j2", "routing_filters.j2", "interfaces.j2", "vlans.j2", "system.j2"] ∧
      (template_files.map Prod.fst).Nodup ∧
      ∀ (env : TemplateEnv) (doc : Document),
        composeSections template_files env doc =
          (["bgp", "routing_filters", "interfaces", "vlans", "system"].map
            (fun n => (render_template template_files env n doc).1)).filter
            (fun s => !(pyStrip s == "")) := by
  refine ⟨rfl, rfl, by decide, ?_⟩
  intro env doc
  exact composeSections_eq template_files env doc

/-- Claim C4: with the registry `[("interfaces", "ok.tmpl"), ("vlans",
"missing.tmpl")]`, where `ok.tmpl` renders `"interface Eth1"` for any input
and `missing.tmpl` is unresolvable, the composed configuration is exactly
`"interface Eth1"` for every input document: the unresolvable entry is
silently omitted and leaves the other section untouched. -/
theorem unresolvable_section_silently_omitted (doc : Document) :
    renderComposedText registryC4 envC4 doc = "interface Eth1" := rfl

/-- Claim C5: `render_template` never fails outward — for any resolvable
section name, an unresolvable template identifier yields empty text plus a
warning diagnostic, a rendering error is absorbed into empty text plus an
error diagnostic, and a successful render returns the rendered text. -/
theorem render_template_absorbs_failures (tf : List (String × String))
    (env : TemplateEnv) (name : String) (doc : Document) (file : String)
    (hfile : lookupA tf name = some file) :
    (env file = TemplateResult.notFound →
        render_template tf env name doc = ("", [Diag.warnTemplateNotFound file])) ∧
      (∀ (g : Document → Except String String) (e : String),
        env file = TemplateResult.found g → g doc = Except.error e →
          render_template tf env name doc = ("", [Diag.errorRendering name e])) ∧
      (∀ (g : Document → Except String String) (s : String),
        env file = TemplateResult.found g → g doc = Except.ok s →
          render_template tf env name doc = (s, [])) := by
  refine ⟨?_, ?_, ?_⟩
  · intro henv
    simp [render_template, hfile, henv]
  · intro g e henv hg
    simp [render_template, hfile, henv, hg]
  · intro g s henv hg
    simp [render_template, hfile, henv, hg]

theorem render_template_absorbs_failures_w :
    render_template template_files envNone "bgp" [] =
      ("", [Diag.warnTemplateNotFound "bgp.j2"]) :=
  (render_template_absorbs_failures template_files envNone "bgp" [] "bgp.j2" rfl).1 rfl

/-- Claim C8: the change-management integration maps the final workflow
outcome to the status label Review for success, Authorize for failure,
Cancelled for cancelled, Authorize for anything else, and the change-record
update it issues carries exactly that label in its `state` field. -/
theorem snow_status_label_mapping :
    snowStatusFor "success" = "Review" ∧ snowStatusFor "failure" = "Authorize" ∧
      snowStatusFor "cancelled" = "Cancelled" ∧
      (∀ s : String, s ≠ "success" → s ≠ "failure" → s ≠ "cancelled" →
        snowStatusFor s = "Authorize") ∧
      ∀ (w n t : String), (mainUpdateFor w n t).2.state = snowStatusFor w := by
  refine ⟨rfl, rfl, rfl, ?_, fun w n t => rfl⟩
  intro s h1 h2 h3
  simp [snowStatusFor, status_mapping, lookupA, Ne.symm h1, Ne.symm h2, Ne.symm h3]

theorem snow_status_label_mapping_w : snowStatusFor "timeout" = "Authorize" :=
  snow_status_label_mapping.2.2.2.1 "timeout" (by decide) (by decide) (by decide)

/-- Claim C3 (counterexample): composing via `render_all_templates` does
write to storage — starting from a filesystem with no files at all, the run
leaves the composed text written at the default output path. -/
theorem compose_writes_output_file_cex :
    render_all_templates template_files envNone ["output"] [] "device" none fs0Cex =
        Except.ok
          ({ files := [(["output", "device_config.txt"], "")], dirs := [["output"]] },
            "") ∧
      fs0Cex.files = [] :=
  ⟨rfl, rfl⟩

/-- Claim C3 (amended): a successful `render_all_templates` drives only the
pure section renders and then performs exactly one storage write — the
composed text at the single output path; every other file and the directory
set are untouched. -/
theorem compose_single_write_only (tf : List (String × String)) (env : TemplateEnv)
    (output_dir : FPath) (data : Document) (device_name : String)
    (output_file : Option FPath) (fs fs2 : FS) (text : String)
    (h : render_all_templates tf env output_dir data device_name output_file fs =
      Except.ok (fs2, text)) :
    text = renderComposedText tf env data ∧
      fs2.dirs = fs.dirs ∧
      lookupA fs2.files (outPath output_dir device_name output_file) = some text ∧
      ∀ q : FPath, q ≠ outPath output_dir device_name output_file →
        lookupA fs2.files q = lookupA fs.files q := by
  unfold render_all_templates at h
  cases hw : FS.write fs (outPath output_dir device_name output_file)
      (renderComposedText tf env data) with
  | error e =>
    rw [hw] at h
    exact Except.noConfusion h
  | ok fs3 =>
    rw [hw] at h
    replace h : Except.ok (fs3, renderComposedText tf env data) =
        (Except.ok (fs2, text) : Except IOErr (FS × String)) := h
    have hshape := write_ok_shape fs (outPath output_dir device_name output_file)
      (renderComposedText tf env data) fs3 hw
    simp only [Except.ok.injEq, Prod.mk.injEq] at h
    obtain ⟨hfs, htext⟩ := h
    subst hfs
    subst htext
    subst hshape
    refine ⟨rfl, rfl, lookupA_setA_self fs.files _ _, ?_⟩
    intro q hq
    exact lookupA_setA_ne fs.files _ q _ hq

theorem compose_single_write_only_w :
    lookupA
        ({ files := [(["output", "device_config.txt"], "")],
            dirs := [["output"]] } : FS).files
        (outPath ["output"] "device" none) = some "" :=
  (compose_single_write_only template_files envNone ["output"] [] "device" none fs0Cex
    { files := [(["output", "device_config.txt"], "")], dirs := [["output"]] } ""
    rfl).2.2.1

/-- Claim C6: whenever the input source path does not exist in the
filesystem, a full run of `main` exits with status 1 and leaves the file
contents of the filesystem (in particular any output artifact) exactly as
they were. -/
theorem missing_input_exits_nonzero_no_write
    (yamlLoad : String → Except String Document) (env : TemplateEnv)
    (a : Args) (fs : FS) (h : lookupA fs.files a.input_file = none) :
    (mainRun yamlLoad env a fs).2 = 1 ∧
      (mainRun yamlLoad env a fs).1.files = fs.files := by
  unfold mainRun
  cases hm : FS.mkdirExistOk fs (a.output_dir.getD ["output"]) with
  | error e => exact ⟨rfl, rfl⟩
  | ok fs1 =>
    have hf := mkdirExistOk_files _ _ _ hm
    show (mainAfterInit yamlLoad env a fs1).2 = 1 ∧
      (mainAfterInit yamlLoad env a fs1).1.files = fs.files
    unfold mainAfterInit
    rw [hf, h]
    exact ⟨rfl, hf⟩

theorem missing_input_exits_nonzero_no_write_w :
    (mainRun yamlLoadEmpty envNone
        { input_file := ["in.yaml"], device_name := "device", output_dir := none,
          validate := false }
        { files := [], dirs := [] }).2 = 1 :=
  (missing_input_exits_nonzero_no_write yamlLoadEmpty envNone
    { input_file := ["in.yaml"], device_name := "device", output_dir := none,
      validate := false }
    { files := [], dirs := [] } rfl).1

/-- Claim C7 (counterexample): for an explicitly supplied destination path
whose parent directory is absent, the output-writing operation does not
create the parent — it fails with a NotFound error instead of persisting. -/
theorem explicit_destination_parent_not_created_cex :
    render_all_templates template_files envNone ["output"] [] "device"
        (some ["missing", "x.txt"]) fs0Cex = Except.error IOErr.notFound ∧
      FS.hasDir fs0Cex ["missing"] = false :=
  ⟨rfl, rfl⟩

/-- Claim C7 (amended): renderer construction creates the configured output
directory idempotently if absent; the default destination's parent is
therefore that directory, so it exists before the write and the write of the
composed text succeeds. -/
theorem output_dir_ensured_for_default_destination (fs : FS) (output_dir : FPath)
    (fs1 : FS) (hmk : FS.mkdirExistOk fs output_dir = Except.ok fs1) :
    fs1.hasDir output_dir = true ∧
      (fs.hasDir output_dir = true → fs1 = fs) ∧
      ∀ (tf : List (String × String)) (env : TemplateEnv) (data : Document)
        (device_name : String),
        render_all_templates tf env output_dir data device_name none fs1 =
          Except.ok
            ({ fs1 with
                files := setA fs1.files (outPath output_dir device_name none)
                  (renderComposedText tf env data) },
              renderComposedText tf env data) := by
  have h1 := mkdirExistOk_hasDir fs output_dir fs1 hmk
  refine ⟨h1, mkdirExistOk_idem fs output_dir fs1 hmk, ?_⟩
  intro tf env data device_name
  unfold render_all_templates
  have hpar : fs1.hasDir (outPath output_dir device_name none).dropLast = true := by
    show fs1.hasDir (output_dir ++ [device_name ++ "_config.txt"]).dropLast = true
    rw [List.dropLast_concat]
    exact h1
  rw [write_ok_of_hasDir fs1 _ _ hpar]

theorem output_dir_ensured_for_default_destination_w :
    FS.hasDir { files := [], dirs := [["output"]] } ["output"] = true :=
  (output_dir_ensured_for_default_destination { files := [], dirs := [] } ["output"]
    { files := [], dirs := [["output"]] } rfl).1
